import Mathlib

/-
Verification of the entitlement / rate-limit store (`user_manager.py`).

The Python module is embedded shallowly:

* The SQLite database is a record `DB` of three row lists (`users`,
  `questions`, `rate_limits`) together with the AUTOINCREMENT counters.
  SQL queries become list operations: `SELECT ... WHERE` is `List.find?` /
  `List.filter`, `COUNT(*)` is `List.length` of a filter, `UPDATE` is
  `List.map` guarded by the WHERE predicate, `INSERT` appends a row.
* Timestamps are integers (seconds).  Wherever the Python code calls
  `datetime.now()` (or SQL `CURRENT_TIMESTAMP`), the embedded operation
  takes the current instant `now : Int` as an explicit argument.
  `timedelta(minutes=1)` is `60`, `timedelta(days=30*months)` is
  `2592000 * months`.  The SQL expression `date('now','start of month')`
  is passed as an explicit argument `month_start : Int` (the instant the
  current calendar month began); a question was asked in the current
  calendar month exactly when `month_start ≤ asked_at`.  Where a query
  compares two timestamp strings of the same origin and format — the
  `asked_at >= date('now','start of month')` filter compares SQLite-written
  UTC strings — the TEXT order is order-isomorphic to the order of
  instants, so the integer model is faithful there.  The one comparison of
  MIXED formats, the rate-limit janitor's
  `DELETE ... WHERE window_start < ?` (space-separated UTC
  `CURRENT_TIMESTAMP` column text versus a `'T'`-separated local
  `datetime.now().isoformat()` parameter), is NOT order-isomorphic to any
  single timescale; it is modelled at the TEXT level by
  `check_rate_limit_text` below.  The integer-time `check_rate_limit` keeps
  the single-timescale reading (one minute = 60) and is used only for
  conclusions that do not depend on which rows the janitor purges.
* `hashlib.sha256(email.lower().encode()).hexdigest()` is modelled as the
  injective function `fun e => e.toLower`: every claim depends only on the
  digest being a stable, collision-free function of the lowercased email,
  which is the working assumption for SHA-256.
* The regular expression `^[a-zA-Z0-9._%+-]+@[a-zA-Z0-9.-]+\.[a-zA-Z]{2,}$`
  used by `validate_email` is embedded as a decidable matcher on the
  character list, including Python's semantics of `$`, which also matches
  just before a newline that ends the string.
* `REAL` costs are idealized as rationals; `round(·, 2)` in `get_user_stats`
  is omitted (no property here concerns the cost aggregate).
* Either branch of `try/except sqlite3.IntegrityError` around the INSERT in
  `get_or_create_user` is reachable only under interleaving with a second
  writer, so the operation is factored as `get_or_create_user_steps` taking
  the state seen by the initial SELECT and the (possibly newer) state seen
  by the INSERT; the sequential call is the diagonal.
-/

namespace UserManager

/-- Character class `[a-zA-Z0-9._%+-]` (the local part of the pattern). -/
def isLocalChar (c : Char) : Bool :=
  c.isAlpha || c.isDigit || c == '.' || c == '_' || c == '%' || c == '+' || c == '-'

/-- Character class `[a-zA-Z0-9.-]` (the domain part of the pattern). -/
def isDomainChar (c : Char) : Bool :=
  c.isAlpha || c.isDigit || c == '.' || c == '-'

/-- Matcher for the suffix `[a-zA-Z0-9.-]+\.[a-zA-Z]{2,}` against the whole
remaining input.  Since `[a-zA-Z]` cannot match `'.'`, the `\.` of any
successful decomposition is necessarily the last dot, with only letters
after it; so we split at the maximal alphabetic suffix. -/
def matchDomain (cs : List Char) : Bool :=
  let r := cs.reverse
  let t := r.takeWhile (fun c => c.isAlpha)
  match r.dropWhile (fun c => c.isAlpha) with
  | [] => false
  | c :: d => c == '.' && decide (2 ≤ t.length) && !d.isEmpty && d.all (fun x => isDomainChar x)

/-- Matcher for `[a-zA-Z0-9._%+-]+@[a-zA-Z0-9.-]+\.[a-zA-Z]{2,}` against the
whole input.  Neither class contains `'@'`, so the `@` of any successful
decomposition sits right after the maximal local-character prefix. -/
def matchCore (cs : List Char) : Bool :=
  match cs.dropWhile (fun c => isLocalChar c) with
  | [] => false
  | c :: rest => c == '@' && !(cs.takeWhile (fun x => isLocalChar x)).isEmpty && matchDomain rest

/-- `validate_email`: `re.match(r'^[a-zA-Z0-9._%+-]+@[a-zA-Z0-9.-]+\.[a-zA-Z]{2,}$', email)`.
In Python, `$` matches at the end of the string or just before a newline at
the end of the string, so a single trailing `'\n'` is tolerated. -/
def validate_email (email : String) : Bool :=
  matchCore email.data ||
    (match email.data.getLast? with
     | some c => c == '\n' && matchCore email.data.dropLast
     | none => false)

/-- `str.lower()` on the underlying characters (the addresses at play are
ASCII, where Python's `lower` is the per-character ASCII mapping). -/
def lowerL (cs : List Char) : List Char :=
  cs.map Char.toLower

/-- `str.strip()` on the underlying characters: drop whitespace from both ends. -/
def trimL (cs : List Char) : List Char :=
  ((cs.dropWhile (fun c => c.isWhitespace)).reverse.dropWhile (fun c => c.isWhitespace)).reverse

/-- `email.lower().strip()` performed by `get_or_create_user` after validation. -/
def normalize_email (email : String) : String :=
  ⟨trimL (lowerL email.data)⟩

/-- `hash_email`: SHA-256 of the lowercased email, modelled as the injective
function returning the lowercased email itself (see the header comment). -/
def hash_email (email : String) : String :=
  ⟨lowerL email.data⟩

/-- A row of the `users` table. -/
structure UserRow where
  id : Nat
  email : String
  email_hash : String
  created_at : Int
  subscription_tier : String
  stripe_customer_id : Option String
  subscription_expires : Option Int
deriving DecidableEq

/-- A row of the `questions` table. -/
structure QuestionRow where
  id : Nat
  user_id : Nat
  question : String
  site : String
  asked_at : Int
  article_url : Option String
  cost : Rat
deriving DecidableEq

/-- A row of the `rate_limits` table. -/
structure RateRow where
  id : Nat
  user_id : Nat
  endpoint : String
  request_count : Nat
  window_start : Int
deriving DecidableEq

/-- The SQLite database: the three tables plus their AUTOINCREMENT counters. -/
structure DB where
  users : List UserRow
  questions : List QuestionRow
  rate_limits : List RateRow
  next_user_id : Nat
  next_question_id : Nat
  next_rate_id : Nat
deriving DecidableEq

/-- The freshly initialized database (`init_database` on a new file). -/
def emptyDB : DB :=
  ⟨[], [], [], 1, 1, 1⟩

/-- The dict returned by `get_or_create_user` (the `email_hash` column is not
included in the returned dict). -/
structure UserResult where
  id : Nat
  email : String
  created_at : Int
  subscription_tier : String
  stripe_customer_id : Option String
  subscription_expires : Option Int
deriving DecidableEq

/-- The dict returned by `get_user_stats`; `remaining_questions = none` stands
for the Python `float('inf')` of the unlimited branch. -/
structure Stats where
  email : String
  tier : String
  total_questions : Nat
  monthly_questions : Nat
  remaining_questions : Option Int
  total_cost : Rat
  created_at : Int
  subscription_expires : Option Int
deriving DecidableEq

/-- `SELECT * FROM users WHERE email_hash = ?` (first row). -/
def findUserByHash (s : DB) (h : String) : Option UserRow :=
  s.users.find? (fun u => u.email_hash == h)

/-- `SELECT ... FROM users WHERE id = ?` (first row). -/
def findUserById (s : DB) (uid : Nat) : Option UserRow :=
  s.users.find? (fun u => u.id == uid)

/-- `SELECT COUNT(*) FROM questions WHERE user_id = ?`. -/
def totalQuestions (s : DB) (uid : Nat) : Nat :=
  (s.questions.filter (fun q => q.user_id == uid)).length

/-- `SELECT COUNT(*) FROM questions WHERE user_id = ? AND asked_at >= date('now','start of month')`. -/
def monthlyQuestions (s : DB) (month_start : Int) (uid : Nat) : Nat :=
  (s.questions.filter (fun q => q.user_id == uid && decide (month_start ≤ q.asked_at))).length

/-- `while` the found row projected to the returned dict. -/
def userRowToResult (u : UserRow) : UserResult :=
  ⟨u.id, u.email, u.created_at, u.subscription_tier, u.stripe_customer_id, u.subscription_expires⟩

/-- `get_or_create_user`, split at its two database round trips: the SELECT
runs against `s_lookup` and the INSERT against `s_insert` (under a race a
second writer may commit in between; sequentially the two coincide, see
`get_or_create_user`).  The INSERT raises `sqlite3.IntegrityError` exactly
when one of the two UNIQUE columns (`email`, `email_hash`) is already
present, in which case the `except` branch returns the error string. -/
def get_or_create_user_steps (s_lookup s_insert : DB) (now : Int) (email : String) :
    (Option UserResult × Option String) × DB :=
  if validate_email email then
    let email1 := normalize_email email
    let h := hash_email email1
    match findUserByHash s_lookup h with
    | some u => ((some (userRowToResult u), none), s_insert)
    | none =>
      if s_insert.users.any (fun u => u.email == email1 || u.email_hash == h) then
        ((none, some "Email already exists"), s_insert)
      else
        let uid := s_insert.next_user_id
        ((some ⟨uid, email1, now, "free", none, none⟩, none),
         { s_insert with
             users := s_insert.users ++ [⟨uid, email1, h, now, "free", none, none⟩],
             next_user_id := uid + 1 })
  else
    ((none, some "Invalid email format"), s_insert)

/-- `get_or_create_user` as executed sequentially: SELECT and INSERT see the
same database state. -/
def get_or_create_user (s : DB) (now : Int) (email : String) :
    (Option UserResult × Option String) × DB :=
  get_or_create_user_steps s s now email

/-- `log_question`: append one row to `questions`. -/
def log_question (s : DB) (now : Int) (user_id : Nat) (question site : String)
    (article_url : Option String) (cost : Rat) : DB :=
  { s with
      questions := s.questions ++ [⟨s.next_question_id, user_id, question, site, now, article_url, cost⟩],
      next_question_id := s.next_question_id + 1 }

/-- `UPDATE users SET subscription_tier = 'free' WHERE id = ?`. -/
def setTierFree (s : DB) (uid : Nat) : DB :=
  { s with
      users := s.users.map (fun u =>
        if u.id == uid then { u with subscription_tier := "free" } else u) }

/-- `can_ask_question`: read tier and expiry; lazily downgrade an expired paid
tier to free in place; then apply the per-tier limit (free: lifetime `< 5`;
basic: this-month `< 100`; unlimited: always). -/
def can_ask_question (s : DB) (now month_start : Int) (user_id : Nat) :
    (Bool × String) × DB :=
  match findUserById s user_id with
  | none => ((false, "User not found"), s)
  | some u =>
    let tier0 := u.subscription_tier
    let step :=
      if tier0 != "free" then
        match u.subscription_expires with
        | some e => if now > e then ("free", setTierFree s user_id) else (tier0, s)
        | none => (tier0, s)
      else (tier0, s)
    let tier := step.1
    let s1 := step.2
    let total := totalQuestions s1 user_id
    let monthly := monthlyQuestions s1 month_start user_id
    if tier == "free" then
      if total ≥ 5 then ((false, "free_limit_reached"), s1) else ((true, "ok"), s1)
    else if tier == "basic" then
      if monthly ≥ 100 then ((false, "monthly_limit_reached"), s1) else ((true, "ok"), s1)
    else if tier == "unlimited" then
      ((true, "ok"), s1)
    else
      ((false, "unknown_tier"), s1)

/-- The per-row effect of `UPDATE users SET subscription_tier = ?,
stripe_customer_id = ?, subscription_expires = ? WHERE id = ?`. -/
def upgradeRow (user_id : Nat) (tier : String) (cust : Option String) (expires : Int)
    (u : UserRow) : UserRow :=
  if u.id == user_id then
    { u with
        subscription_tier := tier,
        stripe_customer_id := cust,
        subscription_expires := some expires }
  else u

/-- `upgrade_user`: reject a tier outside {basic, unlimited}; otherwise run
`UPDATE users SET subscription_tier, stripe_customer_id, subscription_expires
WHERE id = ?` with `subscription_expires = now + timedelta(days=30*months)`
and report success (the UPDATE is not checked for a matched row). -/
def upgrade_user (s : DB) (now : Int) (user_id : Nat) (tier : String)
    (stripe_customer_id : Option String) (months : Int) : (Bool × String) × DB :=
  if tier == "basic" || tier == "unlimited" then
    ((true, "User upgraded"),
     { s with
         users := s.users.map
           (upgradeRow user_id tier stripe_customer_id (now + 2592000 * months)) })
  else
    ((false, "Invalid tier"), s)

/-- The `WHERE user_id = ? AND endpoint = ?` predicate of the rate-limit
queries. -/
def rlKey (user_id : Nat) (endpoint : String) (r : RateRow) : Bool :=
  r.user_id == user_id && r.endpoint == endpoint

/-- The `WHERE window_start < ?` predicate of the janitor DELETE, negated:
rows that survive the purge at instant `now`.  This is the single-timescale
reading (cutoff = one minute before now); the source actually compares a
space-separated UTC `CURRENT_TIMESTAMP` text against a `'T'`-separated local
`isoformat()` cutoff as raw TEXT, which purges differently — see
`check_rate_limit_text` for the faithful TEXT model.  Results proved with
this predicate are used only where they hold under any purge behavior. -/
def freshAt (now : Int) (r : RateRow) : Bool :=
  !decide (r.window_start < now - 60)

/-- The per-row effect of `UPDATE rate_limits SET request_count =
request_count + 1 WHERE user_id = ? AND endpoint = ?`. -/
def bumpCount (user_id : Nat) (endpoint : String) (r : RateRow) : RateRow :=
  if rlKey user_id endpoint r then
    { r with request_count := r.request_count + 1 }
  else r

/-- `check_rate_limit`: globally purge windows older than one minute, then
look up the (user, endpoint) window; absent ⇒ insert with counter 1 and
allow; present at or above the cap ⇒ deny without incrementing; otherwise
increment and allow. -/
def check_rate_limit (s : DB) (now : Int) (user_id : Nat) (endpoint : String)
    (max_per_minute : Nat) : (Bool × String) × DB :=
  let kept := s.rate_limits.filter (freshAt now)
  let s1 := { s with rate_limits := kept }
  match kept.find? (rlKey user_id endpoint) with
  | none =>
    ((true, "ok"),
     { s1 with
         rate_limits := kept ++ [⟨s1.next_rate_id, user_id, endpoint, 1, now⟩],
         next_rate_id := s1.next_rate_id + 1 })
  | some r =>
    if r.request_count ≥ max_per_minute then
      ((false, "rate_limit_exceeded"), s1)
    else
      ((true, "ok"),
       { s1 with rate_limits := kept.map (bumpCount user_id endpoint) })

/-- `get_user_stats`: pure read of the user's row, counts, cost aggregate and
tier-dependent remaining-question count (`3 - total` for free, `100 - monthly`
for basic, unbounded otherwise). -/
def get_user_stats (s : DB) (month_start : Int) (user_id : Nat) : Option Stats :=
  match findUserById s user_id with
  | none => none
  | some u =>
    let total := totalQuestions s user_id
    let monthly := monthlyQuestions s month_start user_id
    let cost := ((s.questions.filter (fun q => q.user_id == user_id)).map (fun q => q.cost)).sum
    let remaining : Option Int :=
      if u.subscription_tier == "free" then some (max 0 (3 - (total : Int)))
      else if u.subscription_tier == "basic" then some (max 0 (100 - (monthly : Int)))
      else none
    some ⟨u.email, u.subscription_tier, total, monthly, remaining, cost, u.created_at, u.subscription_expires⟩

/-- Byte-wise lexicographic order on character lists: exactly how SQLite
compares two TEXT values (memcmp on the UTF-8 bytes; for the ASCII timestamp
strings at play, byte order and code-point order coincide). -/
def textLt : List Char → List Char → Bool
  | [], [] => false
  | [], _ :: _ => true
  | _ :: _, [] => false
  | a :: as, b :: bs =>
    if a.val < b.val then true
    else if b.val < a.val then false
    else textLt as bs

/-- SQLite TEXT comparison of two stored strings. -/
def sqliteTextLt (s t : String) : Bool :=
  textLt s.data t.data

/-- A row of `rate_limits` with `window_start` kept as the TEXT that SQLite
actually stores: the schema default `CURRENT_TIMESTAMP`, a space-separated
UTC string `YYYY-MM-DD HH:MM:SS`. -/
structure RateRowT where
  id : Nat
  user_id : Nat
  endpoint : String
  request_count : Nat
  window_start : String
deriving DecidableEq

/-- The `rate_limits` table with its AUTOINCREMENT counter (the only state
`check_rate_limit` reads or writes). -/
structure RateTable where
  rows : List RateRowT
  next_id : Nat
deriving DecidableEq

/-- `check_rate_limit` with timestamps kept as the TEXT the program really
compares.  `cutoff` is the bound parameter
`(datetime.now() - timedelta(minutes=1)).isoformat()` — a `'T'`-separated
LOCAL-time string `YYYY-MM-DDTHH:MM:SS.ffffff` — while each row's
`window_start` and the `now_sql` stored by the INSERT's column default are
space-separated UTC `CURRENT_TIMESTAMP` strings.  The janitor DELETE
therefore compares mixed formats with `sqliteTextLt`: since `' '` (0x20)
sorts below `'T'` (0x54), every stored window whose date prefix equals the
cutoff's date satisfies `window_start < cutoff` regardless of its age. -/
def check_rate_limit_text (t : RateTable) (cutoff now_sql : String) (user_id : Nat)
    (endpoint : String) (max_per_minute : Nat) : (Bool × String) × RateTable :=
  let kept := t.rows.filter (fun r => !sqliteTextLt r.window_start cutoff)
  match kept.find? (fun r => r.user_id == user_id && r.endpoint == endpoint) with
  | none =>
    ((true, "ok"), ⟨kept ++ [⟨t.next_id, user_id, endpoint, 1, now_sql⟩], t.next_id + 1⟩)
  | some r =>
    if r.request_count ≥ max_per_minute then
      ((false, "rate_limit_exceeded"), ⟨kept, t.next_id⟩)
    else
      ((true, "ok"),
       ⟨kept.map (fun q =>
          if q.user_id == user_id && q.endpoint == endpoint then
            { q with request_count := q.request_count + 1 }
          else q), t.next_id⟩)

/-- The request counter currently recorded for a (user, endpoint) pair. -/
def rateCounter (s : DB) (user_id : Nat) (endpoint : String) : Option Nat :=
  (s.rate_limits.find? (rlKey user_id endpoint)).map (fun r => r.request_count)

/-! Test fixtures: a single free-tier user with `n` logged questions. -/

/-- A free-tier user row as created by `get_or_create_user`. -/
def uFree : UserRow :=
  ⟨1, "a@b.com", "a@b.com", 0, "free", none, none⟩

/-- A question row for user 1, asked at instant `t`. -/
def qRow (i : Nat) (t : Int) : QuestionRow :=
  ⟨i, 1, "q", "site", t, none, 3 / 100⟩

/-- Database holding `uFree` and `n` of their questions, all asked at instant 50. -/
def dbFreeN (n : Nat) : DB :=
  ⟨[uFree], (List.range n).map (fun i => qRow (i + 1) 50), [], 2, n + 1, 1⟩

/-- A basic-tier user whose subscription expires at instant 1000. -/
def uBasic : UserRow :=
  ⟨1, "a@b.com", "a@b.com", 0, "basic", some "cus_1", some 1000⟩

/-- Database holding `uBasic` and `n` of their questions, all asked at
instant 10 (before any month start ≥ 11). -/
def dbBasicOld (n : Nat) : DB :=
  ⟨[uBasic], (List.range n).map (fun i => qRow (i + 1) 10), [], 2, n + 1, 1⟩

/-- A basic-tier user whose subscription expired at instant 10. -/
def uExpiredBasic : UserRow :=
  ⟨1, "a@b.com", "a@b.com", 0, "basic", some "cus_1", some 10⟩

/-- Database holding only `uExpiredBasic`. -/
def dbExpiredBasic : DB :=
  ⟨[uExpiredBasic], [], [], 2, 1, 1⟩

/-! Auxiliary list lemmas used by several proofs. -/

/-- `find?` commutes with a map that does not disturb the predicate. -/
theorem find?_map_pres {α : Type} (p : α → Bool) (f : α → α) (hf : ∀ x, p (f x) = p x)
    (l : List α) : (l.map f).find? p = (l.find? p).map f := by
  induction l with
  | nil => rfl
  | cons a t ih =>
    cases h : p a with
    | true =>
      have h2 : p (f a) = true := (hf a).trans h
      simp [List.find?, h, h2]
    | false =>
      have h2 : p (f a) = false := (hf a).trans h
      simp [List.find?, h, h2, ih]

/-- C2: for an existing free-tier user, `can_ask_question` answers
`(true, "ok")` exactly when the lifetime question count is below 5 and
`(false, "free_limit_reached")` exactly when it is 5 or more; the count is the
number of prior `log_question` calls for the user, each of which increases it
by exactly one. -/
theorem C2_free_tier_limit (s : DB) (now month_start now2 : Int) (uid : Nat) (u : UserRow)
    (q site : String) (url : Option String) (cost : Rat)
    (hfind : findUserById s uid = some u) (htier : u.subscription_tier = "free") :
    ((can_ask_question s now month_start uid).1 = (true, "ok") ↔ totalQuestions s uid < 5)
    ∧ ((can_ask_question s now month_start uid).1 = (false, "free_limit_reached")
        ↔ 5 ≤ totalQuestions s uid)
    ∧ totalQuestions (log_question s now2 uid q site url cost) uid = totalQuestions s uid + 1 := by
  refine ⟨?_, ?_, ?_⟩
  · simp only [can_ask_question, hfind, htier, bne_self_eq_false, Bool.false_eq_true, if_false,
      beq_self_eq_true, if_true]
    by_cases h5 : totalQuestions s uid ≥ 5 <;> simp [h5, Prod.ext_iff] <;> omega
  · simp only [can_ask_question, hfind, htier, bne_self_eq_false, Bool.false_eq_true, if_false,
      beq_self_eq_true, if_true]
    by_cases h5 : totalQuestions s uid ≥ 5 <;> simp [h5, Prod.ext_iff]
  · simp [totalQuestions, log_question, List.filter_append]

/-- Witness for `C2_free_tier_limit` at a fresh free-tier user. -/
theorem C2_free_tier_limit_witness :
    (findUserById (dbFreeN 0) 1 = some uFree ∧ uFree.subscription_tier = "free")
    ∧ (((can_ask_question (dbFreeN 0) 7 3 1).1 = (true, "ok") ↔ totalQuestions (dbFreeN 0) 1 < 5)
       ∧ ((can_ask_question (dbFreeN 0) 7 3 1).1 = (false, "free_limit_reached")
           ↔ 5 ≤ totalQuestions (dbFreeN 0) 1)
       ∧ totalQuestions (log_question (dbFreeN 0) 9 1 "q" "site" none (3 / 100)) 1
           = totalQuestions (dbFreeN 0) 1 + 1) :=
  ⟨⟨by decide, by decide⟩,
   C2_free_tier_limit (dbFreeN 0) 7 3 9 1 uFree "q" "site" none (3 / 100) (by decide) (by decide)⟩

/-- C3 fails on the code: with 3 lifetime questions, a free-tier user's
`get_user_stats` already reports 0 remaining questions (the stats path
compares against 3), while `can_ask_question` still answers `(true, "ok")`
(its limit is 5), and the claimed `max(0, 5 - count)` would be 2, not 0. -/
theorem C3_counterexample :
    (get_user_stats (dbFreeN 3) 0 1).map (fun st => st.remaining_questions) = some (some 0)
    ∧ (can_ask_question (dbFreeN 3) 60 0 1).1 = (true, "ok")
    ∧ max 0 (5 - (totalQuestions (dbFreeN 3) 1 : Int)) = 2 := by
  decide

/-- C3 (amended): for an existing free-tier user, `get_user_stats` reports
`max(0, 3 - lifetime count)` remaining questions — the limit 3, not the limit
5 that `can_ask_question` enforces — so remaining hits 0 as soon as the count
reaches 3, while `can_ask_question` keeps answering `ok` until the count
reaches 5. -/
theorem C3_stats_remaining_uses_three (s : DB) (now month_start : Int) (uid : Nat) (u : UserRow)
    (hfind : findUserById s uid = some u) (htier : u.subscription_tier = "free") :
    ∃ st, get_user_stats s month_start uid = some st
      ∧ st.remaining_questions = some (max 0 (3 - (totalQuestions s uid : Int)))
      ∧ (st.remaining_questions = some 0 ↔ 3 ≤ totalQuestions s uid)
      ∧ ((can_ask_question s now month_start uid).1 = (false, "free_limit_reached")
          ↔ 5 ≤ totalQuestions s uid) := by
  refine ⟨⟨u.email, u.subscription_tier, totalQuestions s uid,
      monthlyQuestions s month_start uid, some (max 0 (3 - (totalQuestions s uid : Int))),
      ((s.questions.filter (fun q => q.user_id == uid)).map (fun q => q.cost)).sum,
      u.created_at, u.subscription_expires⟩, ?_, rfl, ?_, ?_⟩
  · simp only [get_user_stats, hfind, htier, beq_self_eq_true, if_true]
  · simp only [Option.some.injEq]
    omega
  · simp only [can_ask_question, hfind, htier, bne_self_eq_false, Bool.false_eq_true, if_false,
      beq_self_eq_true, if_true]
    by_cases h5 : totalQuestions s uid ≥ 5 <;> simp [h5, Prod.ext_iff]

/-- Witness for `C3_stats_remaining_uses_three` at a free user with 4 questions. -/
theorem C3_stats_remaining_uses_three_witness :
    (findUserById (dbFreeN 4) 1 = some uFree ∧ uFree.subscription_tier = "free")
    ∧ (∃ st, get_user_stats (dbFreeN 4) 0 1 = some st
        ∧ st.remaining_questions = some (max 0 (3 - (totalQuestions (dbFreeN 4) 1 : Int)))
        ∧ (st.remaining_questions = some 0 ↔ 3 ≤ totalQuestions (dbFreeN 4) 1)
        ∧ ((can_ask_question (dbFreeN 4) 60 0 1).1 = (false, "free_limit_reached")
            ↔ 5 ≤ totalQuestions (dbFreeN 4) 1)) :=
  ⟨⟨by decide, by decide⟩,
   C3_stats_remaining_uses_three (dbFreeN 4) 60 0 1 uFree (by decide) (by decide)⟩

/-- C4: an existing basic/unlimited user whose expiry is set and strictly in
the past is rewritten to tier free in the stored users table by
`can_ask_question` itself, and the same call then answers with the free-tier
lifetime rule. -/
theorem C4_lazy_expiry_downgrade (s : DB) (now month_start : Int) (uid : Nat) (u : UserRow)
    (e : Int)
    (hfind : findUserById s uid = some u)
    (htier : u.subscription_tier = "basic" ∨ u.subscription_tier = "unlimited")
    (hexp : u.subscription_expires = some e) (hpast : e < now) :
    (can_ask_question s now month_start uid).2 = setTierFree s uid
    ∧ ((can_ask_question s now month_start uid).1 = (true, "ok")
        ↔ totalQuestions s uid < 5)
    ∧ ((can_ask_question s now month_start uid).1 = (false, "free_limit_reached")
        ↔ 5 ≤ totalQuestions s uid)
    ∧ findUserById (can_ask_question s now month_start uid).2 uid
        = some { u with subscription_tier := "free" } := by
  have hne : (u.subscription_tier != "free") = true := by
    rcases htier with h | h <;> rw [h] <;> rfl
  have hgt : now > e := hpast
  have hfind' : s.users.find? (fun w : UserRow => w.id == uid) = some u := hfind
  have hp : u.id = uid := by
    have := List.find?_some (p := fun w : UserRow => w.id == uid) hfind'
    simpa using this
  have hupd : findUserById (setTierFree s uid) uid
      = some { u with subscription_tier := "free" } := by
    unfold findUserById setTierFree
    rw [find?_map_pres (fun w : UserRow => w.id == uid)
      (fun w => if w.id == uid then { w with subscription_tier := "free" } else w)
      (by intro x; by_cases hx : (x.id == uid) = true <;> simp [hx]) s.users]
    rw [hfind']
    simp [hp]
  have hrun : can_ask_question s now month_start uid =
      if 5 ≤ totalQuestions s uid then ((false, "free_limit_reached"), setTierFree s uid)
      else ((true, "ok"), setTierFree s uid) := by
    simp only [can_ask_question, hfind, hne, if_true, hexp]
    split
    · rfl
    · exact absurd hgt (by assumption)
  refine ⟨?_, ?_, ?_, ?_⟩
  · rw [hrun]
    by_cases h5 : 5 ≤ totalQuestions s uid <;> simp [h5]
  · rw [hrun]
    by_cases h5 : 5 ≤ totalQuestions s uid <;> simp [h5, Prod.ext_iff] <;> omega
  · rw [hrun]
    by_cases h5 : 5 ≤ totalQuestions s uid <;> simp [h5, Prod.ext_iff]
  · rw [hrun]
    by_cases h5 : 5 ≤ totalQuestions s uid <;> simp [h5, hupd]

/-- Witness for `C4_lazy_expiry_downgrade`: a basic user expired at instant 10,
checked at instant 20. -/
theorem C4_lazy_expiry_downgrade_witness :
    (findUserById dbExpiredBasic 1 = some uExpiredBasic
      ∧ (uExpiredBasic.subscription_tier = "basic" ∨ uExpiredBasic.subscription_tier = "unlimited")
      ∧ uExpiredBasic.subscription_expires = some 10 ∧ (10 : Int) < 20)
    ∧ ((can_ask_question dbExpiredBasic 20 0 1).2 = setTierFree dbExpiredBasic 1
       ∧ ((can_ask_question dbExpiredBasic 20 0 1).1 = (true, "ok")
           ↔ totalQuestions dbExpiredBasic 1 < 5)
       ∧ ((can_ask_question dbExpiredBasic 20 0 1).1 = (false, "free_limit_reached")
           ↔ 5 ≤ totalQuestions dbExpiredBasic 1)
       ∧ findUserById (can_ask_question dbExpiredBasic 20 0 1).2 1
           = some { uExpiredBasic with subscription_tier := "free" }) :=
  ⟨⟨by decide, Or.inl (by decide), by decide, by decide⟩,
   C4_lazy_expiry_downgrade dbExpiredBasic 20 0 1 uExpiredBasic 10 (by decide)
     (Or.inl (by decide)) (by decide) (by decide)⟩

/-- C8: a string rejected by the validation pattern makes `get_or_create_user`
fail with the invalid-email error and leave the database untouched, and a tier
outside {basic, unlimited} makes `upgrade_user` fail with the invalid-tier
error and leave the database untouched. -/
theorem C8_invalid_inputs_no_side_effects (s : DB) (now now2 : Int) (email : String)
    (uid : Nat) (tier : String) (cust : Option String) (months : Int)
    (hmail : validate_email email = false)
    (htier : tier ≠ "basic" ∧ tier ≠ "unlimited") :
    get_or_create_user s now email = ((none, some "Invalid email format"), s)
    ∧ upgrade_user s now2 uid tier cust months = ((false, "Invalid tier"), s) := by
  constructor
  · simp [get_or_create_user, get_or_create_user_steps, hmail]
  · simp [upgrade_user, htier.1, htier.2]

/-- Witness for `C8_invalid_inputs_no_side_effects` at the spec's own examples
`"not-an-email"` and `"gold"`. -/
theorem C8_invalid_inputs_no_side_effects_witness :
    (validate_email "not-an-email" = false
      ∧ ("gold" ≠ "basic" ∧ "gold" ≠ "unlimited"))
    ∧ (get_or_create_user (dbFreeN 1) 4 "not-an-email"
        = ((none, some "Invalid email format"), dbFreeN 1)
       ∧ upgrade_user (dbFreeN 1) 6 1 "gold" none 1 = ((false, "Invalid tier"), dbFreeN 1)) :=
  ⟨⟨by decide, by decide, by decide⟩,
   C8_invalid_inputs_no_side_effects (dbFreeN 1) 4 6 "not-an-email" 1 "gold" none 1
     (by decide) ⟨by decide, by decide⟩⟩

/-- The database state produced by `upgrade_user` holds the user's row with
exactly the requested tier, billing reference and expiry `now + 30·months
days`, whatever the row held before. -/
theorem findUserById_upgrade (s : DB) (now : Int) (uid : Nat) (u : UserRow) (t : String)
    (c : Option String) (m : Int)
    (hv : (t == "basic" || t == "unlimited") = true)
    (hfind : findUserById s uid = some u) :
    findUserById (upgrade_user s now uid t c m).2 uid
      = some { u with subscription_tier := t, stripe_customer_id := c,
                      subscription_expires := some (now + 2592000 * m) } := by
  have hfind' : s.users.find? (fun w : UserRow => w.id == uid) = some u := hfind
  have hp : u.id = uid := by
    have := List.find?_some (p := fun w : UserRow => w.id == uid) hfind'
    simpa using this
  simp only [upgrade_user, hv, if_true]
  unfold findUserById
  rw [find?_map_pres (fun w : UserRow => w.id == uid)
    (upgradeRow uid t c (now + 2592000 * m))
    (by intro x; unfold upgradeRow; by_cases hx : (x.id == uid) = true <;> simp [hx]) s.users]
  rw [hfind']
  simp [upgradeRow, hp]

/-- C6: for an existing basic-tier user with an unexpired (or absent)
subscription expiry, `can_ask_question` answers `(true, "ok")` exactly when
the count of questions asked since the start of the current calendar month is
below 100, `(false, "monthly_limit_reached")` exactly when it is 100 or more,
and questions dated before the month start never count: if all the user's
questions predate the month start the call allows regardless of their number. -/
theorem C6_basic_monthly_limit (s : DB) (now month_start : Int) (uid : Nat) (u : UserRow)
    (hfind : findUserById s uid = some u) (htier : u.subscription_tier = "basic")
    (hexp : ∀ e, u.subscription_expires = some e → now ≤ e) :
    ((can_ask_question s now month_start uid).1 = (true, "ok")
      ↔ monthlyQuestions s month_start uid < 100)
    ∧ ((can_ask_question s now month_start uid).1 = (false, "monthly_limit_reached")
        ↔ 100 ≤ monthlyQuestions s month_start uid)
    ∧ ((∀ q ∈ s.questions, q.user_id = uid → q.asked_at < month_start)
        → (can_ask_question s now month_start uid).1 = (true, "ok")) := by
  have hne : (u.subscription_tier != "free") = true := by rw [htier]; rfl
  have hrun : can_ask_question s now month_start uid =
      if 100 ≤ monthlyQuestions s month_start uid then ((false, "monthly_limit_reached"), s)
      else ((true, "ok"), s) := by
    simp only [can_ask_question, hfind, hne, if_true]
    cases hs : u.subscription_expires with
    | none => simp [htier]
    | some e =>
      have hnotgt : ¬ now > e := not_lt.mpr (hexp e hs)
      simp [hnotgt, htier]
  refine ⟨?_, ?_, ?_⟩
  · rw [hrun]
    by_cases h : 100 ≤ monthlyQuestions s month_start uid <;> simp [h, Prod.ext_iff] <;> omega
  · rw [hrun]
    by_cases h : 100 ≤ monthlyQuestions s month_start uid <;> simp [h, Prod.ext_iff]
  · intro hq
    have hm0 : monthlyQuestions s month_start uid = 0 := by
      unfold monthlyQuestions
      rw [List.length_eq_zero, List.filter_eq_nil_iff]
      intro q hqmem
      by_cases hu : q.user_id = uid
      · have := hq q hqmem hu
        simp [hu]
        omega
      · simp [hu]
    rw [hrun, hm0]
    simp

/-- Witness for `C6_basic_monthly_limit`: a basic user with 100 questions all
asked before the month start is still allowed. -/
theorem C6_basic_monthly_limit_witness :
    (findUserById (dbBasicOld 100) 1 = some uBasic
      ∧ uBasic.subscription_tier = "basic"
      ∧ (∀ e, uBasic.subscription_expires = some e → (70 : Int) ≤ e))
    ∧ (((can_ask_question (dbBasicOld 100) 70 60 1).1 = (true, "ok")
        ↔ monthlyQuestions (dbBasicOld 100) 60 1 < 100)
       ∧ ((can_ask_question (dbBasicOld 100) 70 60 1).1 = (false, "monthly_limit_reached")
           ↔ 100 ≤ monthlyQuestions (dbBasicOld 100) 60 1)
       ∧ ((∀ q ∈ (dbBasicOld 100).questions, q.user_id = 1 → q.asked_at < 60)
           → (can_ask_question (dbBasicOld 100) 70 60 1).1 = (true, "ok"))) :=
  ⟨⟨by decide, by decide, by decide⟩,
   C6_basic_monthly_limit (dbBasicOld 100) 70 60 1 uBasic (by decide) (by decide) (by decide)⟩

/-- C7 fails on the code: for an id with no backing user row,
`check_rate_limit` reports success (`(true, "ok")`) and inserts a rate-limit
window for the phantom id, and `upgrade_user` also reports success — neither
yields a not-found result. -/
theorem C7_counterexample :
    findUserById emptyDB 7 = none
    ∧ (check_rate_limit emptyDB 0 7 "ask" 10).1 = (true, "ok")
    ∧ rateCounter (check_rate_limit emptyDB 0 7 "ask" 10).2 7 "ask" = some 1
    ∧ (upgrade_user emptyDB 0 7 "basic" none 1).1 = (true, "User upgraded") := by
  decide

/-- C7 (amended): for an id with no backing user row, `can_ask_question`
answers `(false, "User not found")` without touching the store and
`get_user_stats` answers `none`; but `upgrade_user` (with a valid tier)
reports success while updating nothing, and `check_rate_limit` reports
success and records a fresh rate-limit window for the unknown id. -/
theorem C7_unknown_id_behaviour (s : DB) (now month_start now2 : Int) (uid : Nat)
    (tier : String) (cust : Option String) (months : Int) (ep : String) (m : Nat)
    (hfind : findUserById s uid = none)
    (htier : tier = "basic" ∨ tier = "unlimited")
    (hrl : ∀ r ∈ s.rate_limits, ¬(r.user_id = uid ∧ r.endpoint = ep)) :
    can_ask_question s now month_start uid = ((false, "User not found"), s)
    ∧ get_user_stats s month_start uid = none
    ∧ upgrade_user s now2 uid tier cust months = ((true, "User upgraded"), s)
    ∧ (check_rate_limit s now uid ep m).1 = (true, "ok")
    ∧ rateCounter (check_rate_limit s now uid ep m).2 uid ep = some 1 := by
  have hfind' : s.users.find? (fun w : UserRow => w.id == uid) = none := hfind
  have hnoid : ∀ x ∈ s.users, (x.id == uid) = false := by
    intro x hx
    have := List.find?_eq_none.mp hfind' x hx
    simpa using this
  have hvalid : (tier == "basic" || tier == "unlimited") = true := by
    rcases htier with h | h <;> simp [h]
  have hkeptnone :
      (s.rate_limits.filter (freshAt now)).find? (rlKey uid ep) = none := by
    rw [List.find?_eq_none]
    intro r hr
    have hmem := (List.mem_filter.mp hr).1
    have := hrl r hmem
    simp only [rlKey, Bool.and_eq_true, beq_iff_eq]
    tauto
  refine ⟨?_, ?_, ?_, ?_, ?_⟩
  · simp [can_ask_question, hfind]
  · simp [get_user_stats, hfind]
  · simp only [upgrade_user, hvalid, if_true]
    have hmap : s.users.map (upgradeRow uid tier cust (now2 + 2592000 * months)) = s.users := by
      refine (List.map_congr_left ?_).trans (List.map_id _)
      intro x hx
      simp [upgradeRow, hnoid x hx]
    rw [hmap]
  · simp only [check_rate_limit, hkeptnone]
  · simp only [check_rate_limit, hkeptnone, rateCounter]
    rw [List.find?_append, hkeptnone]
    simp [rlKey]

/-- Witness for `C7_unknown_id_behaviour` at an empty store and id 7. -/
theorem C7_unknown_id_behaviour_witness :
    (findUserById emptyDB 7 = none
      ∧ ("basic" = "basic" ∨ ("basic" : String) = "unlimited")
      ∧ (∀ r ∈ emptyDB.rate_limits, ¬(r.user_id = 7 ∧ r.endpoint = "ask")))
    ∧ (can_ask_question emptyDB 0 0 7 = ((false, "User not found"), emptyDB)
       ∧ get_user_stats emptyDB 0 7 = none
       ∧ upgrade_user emptyDB 5 7 "basic" none 1 = ((true, "User upgraded"), emptyDB)
       ∧ (check_rate_limit emptyDB 0 7 "ask" 10).1 = (true, "ok")
       ∧ rateCounter (check_rate_limit emptyDB 0 7 "ask" 10).2 7 "ask" = some 1) :=
  ⟨⟨by decide, Or.inl (by decide), by decide⟩,
   C7_unknown_id_behaviour emptyDB 0 0 5 7 "basic" none 1 "ask" 10 (by decide)
     (Or.inl (by decide)) (by decide)⟩

/-- C9: for an existing user, `upgrade_user` with a valid tier succeeds and
stores exactly the requested tier, billing reference and expiry
`now + 30·months days` (2592000·months seconds); a second call overwrites all
three, leaving precisely the second call's tier and expiry — no stacking. -/
theorem C9_upgrade_overwrites (s : DB) (now1 now2 : Int) (uid : Nat) (u : UserRow)
    (t1 t2 : String) (c1 c2 : Option String) (m1 m2 : Int)
    (hfind : findUserById s uid = some u)
    (ht1 : t1 = "basic" ∨ t1 = "unlimited") (ht2 : t2 = "basic" ∨ t2 = "unlimited") :
    (upgrade_user s now1 uid t1 c1 m1).1 = (true, "User upgraded")
    ∧ findUserById (upgrade_user s now1 uid t1 c1 m1).2 uid
        = some { u with subscription_tier := t1, stripe_customer_id := c1,
                        subscription_expires := some (now1 + 2592000 * m1) }
    ∧ (upgrade_user (upgrade_user s now1 uid t1 c1 m1).2 now2 uid t2 c2 m2).1
        = (true, "User upgraded")
    ∧ findUserById (upgrade_user (upgrade_user s now1 uid t1 c1 m1).2 now2 uid t2 c2 m2).2 uid
        = some { u with subscription_tier := t2, stripe_customer_id := c2,
                        subscription_expires := some (now2 + 2592000 * m2) } := by
  have hv1 : (t1 == "basic" || t1 == "unlimited") = true := by
    rcases ht1 with h | h <;> simp [h]
  have hv2 : (t2 == "basic" || t2 == "unlimited") = true := by
    rcases ht2 with h | h <;> simp [h]
  have h1 := findUserById_upgrade s now1 uid u t1 c1 m1 hv1 hfind
  have h2 := findUserById_upgrade (upgrade_user s now1 uid t1 c1 m1).2 now2 uid
    { u with subscription_tier := t1, stripe_customer_id := c1,
             subscription_expires := some (now1 + 2592000 * m1) } t2 c2 m2 hv2 h1
  refine ⟨by simp [upgrade_user, hv1], h1, by simp [upgrade_user, hv2], h2⟩

/-- Witness for `C9_upgrade_overwrites`: basic for 1 month, then unlimited for
2 months. -/
theorem C9_upgrade_overwrites_witness :
    (findUserById (dbFreeN 0) 1 = some uFree
      ∧ ("basic" = "basic" ∨ ("basic" : String) = "unlimited")
      ∧ (("unlimited" : String) = "basic" ∨ "unlimited" = "unlimited"))
    ∧ ((upgrade_user (dbFreeN 0) 100 1 "basic" (some "cus_1") 1).1 = (true, "User upgraded")
       ∧ findUserById (upgrade_user (dbFreeN 0) 100 1 "basic" (some "cus_1") 1).2 1
           = some { uFree with subscription_tier := "basic", stripe_customer_id := some "cus_1",
                               subscription_expires := some (100 + 2592000 * 1) }
       ∧ (upgrade_user (upgrade_user (dbFreeN 0) 100 1 "basic" (some "cus_1") 1).2 200 1
            "unlimited" (some "cus_2") 2).1 = (true, "User upgraded")
       ∧ findUserById (upgrade_user (upgrade_user (dbFreeN 0) 100 1 "basic" (some "cus_1") 1).2
            200 1 "unlimited" (some "cus_2") 2).2 1
           = some { uFree with subscription_tier := "unlimited",
                               stripe_customer_id := some "cus_2",
                               subscription_expires := some (200 + 2592000 * 2) }) :=
  ⟨⟨by decide, Or.inl (by decide), Or.inr (by decide)⟩,
   C9_upgrade_overwrites (dbFreeN 0) 100 200 1 uFree "basic" "unlimited"
     (some "cus_1") (some "cus_2") 1 2 (by decide) (Or.inl (by decide)) (Or.inr (by decide))⟩

/-- C5: the janitor DELETE compares a space-separated UTC `CURRENT_TIMESTAMP`
window against a `'T'`-separated local `isoformat()` cutoff as TEXT, and
`' '` sorts below `'T'`, so a same-date window is purged on every call no
matter how recent it is: with `max_per_minute = 1`, a second call one second
after the first — which the claim requires to be denied — finds the window
gone, is allowed, and records a fresh counter of 1.  The counter never
accumulates and `rate_limit_exceeded` is never reached in same-day operation,
contradicting both the code's own comment ("older than 1 minute") and the
spec.  The trace below evaluates the TEXT-faithful model at that input. -/
theorem C5_code_bug_trace :
    sqliteTextLt "2026-10-12 14:00:00" "2026-10-12T13:59:01.000001" = true
    ∧ check_rate_limit_text ⟨[], 1⟩ "2026-10-12T13:59:00.000001" "2026-10-12 14:00:00"
        1 "ask" 1
        = ((true, "ok"), ⟨[⟨1, 1, "ask", 1, "2026-10-12 14:00:00"⟩], 2⟩)
    ∧ check_rate_limit_text ⟨[⟨1, 1, "ask", 1, "2026-10-12 14:00:00"⟩], 2⟩
        "2026-10-12T13:59:01.000001" "2026-10-12 14:00:01" 1 "ask" 1
        = ((true, "ok"), ⟨[⟨2, 1, "ask", 1, "2026-10-12 14:00:01"⟩], 3⟩) := by
  decide

/-- Whitespace is not in the local-part character class. -/
theorem ws_not_local (c : Char) (hw : c.isWhitespace = true) : isLocalChar c = false := by
  simp only [Char.isWhitespace, Bool.or_eq_true, decide_eq_true_eq] at hw
  rcases hw with ((h | h) | h) | h <;> subst h <;> decide

/-- Whitespace is not `'@'`. -/
theorem ws_ne_at (c : Char) (hw : c.isWhitespace = true) : c ≠ '@' := by
  simp only [Char.isWhitespace, Bool.or_eq_true, decide_eq_true_eq] at hw
  rcases hw with ((h | h) | h) | h <;> subst h <;> decide

/-- Whitespace is not alphabetic. -/
theorem ws_not_alpha (c : Char) (hw : c.isWhitespace = true) : c.isAlpha = false := by
  simp only [Char.isWhitespace, Bool.or_eq_true, decide_eq_true_eq] at hw
  rcases hw with ((h | h) | h) | h <;> subst h <;> decide

/-- The core pattern rejects the empty input. -/
theorem matchCore_nil : matchCore [] = false := rfl

/-- The core pattern rejects any input whose first character is neither a
local-part character nor `'@'`. -/
theorem matchCore_head_fail (c : Char) (t : List Char)
    (h1 : isLocalChar c = false) (h2 : c ≠ '@') : matchCore (c :: t) = false := by
  unfold matchCore
  rw [List.dropWhile_cons, if_neg (by simp [h1])]
  simp [h2]

/-- A successful `matchDomain` forces the input to end in a letter. -/
theorem matchDomain_last (r2 : List Char) (h : matchDomain r2 = true) :
    ∃ a, r2.getLast? = some a ∧ a.isAlpha = true := by
  simp only [matchDomain] at h
  cases hdw : r2.reverse.dropWhile (fun c => c.isAlpha) with
  | nil => rw [hdw] at h; simp at h
  | cons c d =>
    rw [hdw] at h
    simp only [Bool.and_eq_true, decide_eq_true_eq] at h
    obtain ⟨⟨⟨-, hlen⟩, -⟩, -⟩ := h
    cases hr : r2.reverse with
    | nil => rw [hr] at hlen; simp at hlen
    | cons a rr =>
      rw [hr] at hlen
      by_cases ha : a.isAlpha = true
      · refine ⟨a, ?_, ha⟩
        rw [← List.head?_reverse, hr]
        rfl
      · rw [List.takeWhile_cons_of_neg (by simp [ha])] at hlen
        simp at hlen

/-- A successful `matchCore` forces the input to end in a letter. -/
theorem matchCore_last (cs : List Char) (h : matchCore cs = true) :
    ∃ a, cs.getLast? = some a ∧ a.isAlpha = true := by
  simp only [matchCore] at h
  cases hdw : cs.dropWhile (fun c => isLocalChar c) with
  | nil => rw [hdw] at h; simp at h
  | cons c r2 =>
    rw [hdw] at h
    simp only [Bool.and_eq_true, beq_iff_eq] at h
    obtain ⟨⟨-, -⟩, hdom⟩ := h
    obtain ⟨a, hlast, halpha⟩ := matchDomain_last r2 hdom
    have hr2ne : r2 ≠ [] := by
      intro hnil
      rw [hnil] at hlast
      exact Option.noConfusion hlast
    refine ⟨a, ?_, halpha⟩
    have hsplit : cs.takeWhile (fun c => isLocalChar c)
        ++ cs.dropWhile (fun c => isLocalChar c) = cs :=
      List.takeWhile_append_dropWhile (fun c => isLocalChar c) cs
    rw [← hsplit, hdw]
    rw [List.getLast?_append_of_ne_nil _ (by simp)]
    rw [show c :: r2 = [c] ++ r2 from rfl]
    rw [List.getLast?_append_of_ne_nil _ hr2ne]
    exact hlast

/-- A leading whitespace character makes `validate_email` reject. -/
theorem validate_head_ws (email : String) (c : Char)
    (hc : email.data.head? = some c) (hw : c.isWhitespace = true) :
    validate_email email = false := by
  unfold validate_email
  have h1 : isLocalChar c = false := ws_not_local c hw
  have h2 : c ≠ '@' := ws_ne_at c hw
  cases hd : email.data with
  | nil => rw [hd] at hc; exact Option.noConfusion hc
  | cons a t =>
    rw [hd] at hc
    have ha : a = c := by
      have : some a = some c := hc
      exact Option.some.inj this
    subst ha
    rw [matchCore_head_fail a t h1 h2]
    simp only [Bool.false_or]
    cases hlast : (a :: t).getLast? with
    | none => rfl
    | some z =>
      by_cases hz : z = '\n'
      · cases t with
        | nil => simp [matchCore_nil]
        | cons b t' =>
          have hmc2 : matchCore (a :: (b :: t').dropLast) = false :=
            matchCore_head_fail a _ h1 h2
          simp [hmc2]
      · simp [hz]

/-- A trailing whitespace character other than `'\n'` makes `validate_email`
reject. -/
theorem validate_last_ws (email : String) (c : Char)
    (hc : email.data.getLast? = some c) (hw : c.isWhitespace = true) (hnl : c ≠ '\n') :
    validate_email email = false := by
  unfold validate_email
  have hmc : matchCore email.data = false := by
    cases hmc : matchCore email.data with
    | false => rfl
    | true =>
      obtain ⟨a, hlast, halpha⟩ := matchCore_last _ hmc
      rw [hc] at hlast
      have hca : c = a := Option.some.inj hlast
      rw [← hca, ws_not_alpha c hw] at halpha
      exact Bool.noConfusion halpha
  rw [hmc]
  simp only [Bool.false_or]
  rw [hc]
  simp [hnl]

/-- C10 fails on the code: `"a@b.co\n"` carries trailing whitespace, yet it
passes validation (Python's `$` also matches just before a final newline),
and `get_or_create_user` then creates and returns the trimmed user instead of
failing with the invalid-email error. -/
theorem C10_counterexample :
    validate_email "a@b.co\n" = true
    ∧ (get_or_create_user emptyDB 0 "a@b.co\n").1
        = (some ⟨1, "a@b.co", 0, "free", none, none⟩, none)
    ∧ (get_or_create_user emptyDB 0 "a@b.co\n").2 ≠ emptyDB := by
  decide

/-- C10 (amended): `get_or_create_user` validates the raw input before
trimming, so an email padded with leading whitespace, or with trailing
whitespace whose final character is not a newline, always fails with the
invalid-email error and changes nothing — but a well-formed address followed
by exactly one `'\n'` slips through, because the pattern anchor `$` also
matches just before a newline that ends the string (see
`C10_counterexample`). -/
theorem C10_padded_email_rejected (s : DB) (now : Int) (email : String) (c : Char)
    (h : (email.data.head? = some c ∧ c.isWhitespace = true)
       ∨ (email.data.getLast? = some c ∧ c.isWhitespace = true ∧ c ≠ '\n')) :
    validate_email email = false
    ∧ get_or_create_user s now email = ((none, some "Invalid email format"), s) := by
  have hv : validate_email email = false := by
    rcases h with ⟨hc, hw⟩ | ⟨hc, hw, hnl⟩
    · exact validate_head_ws email c hc hw
    · exact validate_last_ws email c hc hw hnl
  exact ⟨hv, by simp [get_or_create_user, get_or_create_user_steps, hv]⟩

/-- Witness for `C10_padded_email_rejected` at `" a@b.com"` (leading blank
whose trimmed form is well-formed). -/
theorem C10_padded_email_rejected_witness :
    (" a@b.com".data.head? = some ' ' ∧ (' ').isWhitespace = true
      ∧ validate_email "a@b.com" = true)
    ∧ (validate_email " a@b.com" = false
       ∧ get_or_create_user emptyDB 0 " a@b.com"
           = ((none, some "Invalid email format"), emptyDB)) :=
  ⟨⟨by decide, by decide, by decide⟩,
   C10_padded_email_rejected emptyDB 0 " a@b.com" ' ' (Or.inl ⟨by decide, by decide⟩)⟩

/-- When the lookup hash is present, `get_or_create_user` returns the stored
row unchanged and leaves the database untouched. -/
theorem gocu_found (s : DB) (now : Int) (e : String) (u : UserRow)
    (hv : validate_email e = true)
    (hfind : findUserByHash s (hash_email (normalize_email e)) = some u) :
    get_or_create_user s now e = ((some (userRowToResult u), none), s) := by
  simp [get_or_create_user, get_or_create_user_steps, hv, hfind]

/-- When the lookup hash is absent from a hash-consistent store, the INSERT of
`get_or_create_user` succeeds: the new free row is appended and returned. -/
theorem gocu_insert (s : DB) (now : Int) (e : String)
    (hv : validate_email e = true)
    (hfind : findUserByHash s (hash_email (normalize_email e)) = none)
    (hwf : ∀ u ∈ s.users, u.email_hash = hash_email u.email) :
    get_or_create_user s now e =
      ((some ⟨s.next_user_id, normalize_email e, now, "free", none, none⟩, none),
       { s with
           users := s.users ++ [⟨s.next_user_id, normalize_email e,
             hash_email (normalize_email e), now, "free", none, none⟩],
           next_user_id := s.next_user_id + 1 }) := by
  have hfind' : s.users.find?
      (fun u => u.email_hash == hash_email (normalize_email e)) = none := hfind
  have hany : (s.users.any fun w =>
      w.email == normalize_email e || w.email_hash == hash_email (normalize_email e))
      = false := by
    rw [List.any_eq_false]
    intro w hw
    have hno := List.find?_eq_none.mp hfind' w hw
    simp only [beq_iff_eq] at hno
    simp only [Bool.or_eq_true, beq_iff_eq, not_or]
    exact ⟨fun hmail => hno ((hwf w hw).trans (by rw [hmail])), hno⟩
  simp [get_or_create_user, get_or_create_user_steps, hv, hfind, hany]

/-- C1 fails on the code at the race path: when the SELECT ran against a
store without the row (`emptyDB`) and a concurrent writer then created it
(`dbFreeN 0`), the INSERT's uniqueness violation makes `get_or_create_user`
return the error `"Email already exists"` to the caller instead of
re-querying and returning the winner's row. -/
theorem C1_counterexample :
    get_or_create_user_steps emptyDB (dbFreeN 0) 0 "a@b.com"
      = ((none, some "Email already exists"), dbFreeN 0) := by
  decide

/-- C1 (amended): sequentially, creation is idempotent — after a first
successful `get_or_create_user`, a second call for the same normalized email
returns the existing row with the same id, without error and without touching
the store; but when the INSERT races with a winner (uniqueness violation),
the operation surfaces the error `"Email already exists"` to the caller
rather than re-querying the winner's row. -/
theorem C1_idempotent_creation (s : DB) (now now2 : Int) (e1 e2 : String)
    (hwf : ∀ u ∈ s.users, u.email_hash = hash_email u.email)
    (hv1 : validate_email e1 = true) (hv2 : validate_email e2 = true)
    (heq : hash_email (normalize_email e1) = hash_email (normalize_email e2)) :
    (∃ u, (get_or_create_user s now e1).1 = (some u, none)
      ∧ ∃ u2, (get_or_create_user (get_or_create_user s now e1).2 now2 e2).1
            = (some u2, none)
        ∧ u2.id = u.id
        ∧ (get_or_create_user (get_or_create_user s now e1).2 now2 e2).2
            = (get_or_create_user s now e1).2)
    ∧ (∀ sl si : DB,
        findUserByHash sl (hash_email (normalize_email e2)) = none →
        (∃ w ∈ si.users, w.email_hash = hash_email (normalize_email e2)) →
        get_or_create_user_steps sl si now2 e2
          = ((none, some "Email already exists"), si)) := by
  constructor
  · cases hfind : findUserByHash s (hash_email (normalize_email e1)) with
    | some u =>
      have h1 := gocu_found s now e1 u hv1 hfind
      have hfind2 : findUserByHash s (hash_email (normalize_email e2)) = some u :=
        heq ▸ hfind
      have h2 := gocu_found s now2 e2 u hv2 hfind2
      refine ⟨userRowToResult u, by rw [h1], userRowToResult u, ?_, rfl, ?_⟩
      · rw [h1, h2]
      · rw [h1, h2]
    | none =>
      have h1 := gocu_insert s now e1 hv1 hfind hwf
      have hfind2 : findUserByHash
          { s with
              users := s.users ++ [⟨s.next_user_id, normalize_email e1,
                hash_email (normalize_email e1), now, "free", none, none⟩],
              next_user_id := s.next_user_id + 1 }
          (hash_email (normalize_email e2))
          = some ⟨s.next_user_id, normalize_email e1,
              hash_email (normalize_email e1), now, "free", none, none⟩ := by
        unfold findUserByHash
        rw [List.find?_append]
        rw [show s.users.find?
            (fun u => u.email_hash == hash_email (normalize_email e2)) = none from
          heq ▸ hfind]
        simp [← heq]
      have h2 := gocu_found _ now2 e2 _ hv2 hfind2
      refine ⟨⟨s.next_user_id, normalize_email e1, now, "free", none, none⟩,
        by rw [h1], ⟨s.next_user_id, normalize_email e1, now, "free", none, none⟩,
        ?_, rfl, ?_⟩
      · rw [h1, h2]
        rfl
      · rw [h1, h2]
  · rintro sl si hsl ⟨w, hwmem, hwh⟩
    have hany : (si.users.any fun u =>
        u.email == normalize_email e2 || u.email_hash == hash_email (normalize_email e2))
        = true :=
      List.any_eq_true.mpr ⟨w, hwmem, by simp [hwh]⟩
    simp [get_or_create_user_steps, hv2, hsl, hany]

/-- Witness for `C1_idempotent_creation`: `"Foo@Bar.com"` then
`"foo@bar.com"` against an empty store. -/
theorem C1_idempotent_creation_witness :
    ((∀ u ∈ emptyDB.users, u.email_hash = hash_email u.email)
      ∧ validate_email "Foo@Bar.com" = true ∧ validate_email "foo@bar.com" = true
      ∧ hash_email (normalize_email "Foo@Bar.com")
          = hash_email (normalize_email "foo@bar.com"))
    ∧ ((∃ u, (get_or_create_user emptyDB 3 "Foo@Bar.com").1 = (some u, none)
        ∧ ∃ u2, (get_or_create_user (get_or_create_user emptyDB 3 "Foo@Bar.com").2 8
              "foo@bar.com").1 = (some u2, none)
          ∧ u2.id = u.id
          ∧ (get_or_create_user (get_or_create_user emptyDB 3 "Foo@Bar.com").2 8
                "foo@bar.com").2
              = (get_or_create_user emptyDB 3 "Foo@Bar.com").2)
       ∧ (∀ sl si : DB,
          findUserByHash sl (hash_email (normalize_email "foo@bar.com")) = none →
          (∃ w ∈ si.users, w.email_hash = hash_email (normalize_email "foo@bar.com")) →
          get_or_create_user_steps sl si 8 "foo@bar.com"
            = ((none, some "Email already exists"), si))) :=
  ⟨⟨by decide, by decide, by decide, by decide⟩,
   C1_idempotent_creation emptyDB 3 8 "Foo@Bar.com" "foo@bar.com" (by decide) (by decide)
     (by decide) (by decide)⟩

end UserManager
